import Mathlib

/-!
Verification of the task-tracking REST service (`src/backend/app.py`).

The service keeps an in-memory list of task records together with a
global id counter.  The five request handlers `get_task`, `create_task`,
`update_task`, `delete_task` and `toggle_task` are embedded below as
pure functions over an explicit `StoreState`; JSON payloads become
records of optional fields, and the wall-clock timestamp used for
`created_at` is passed in as an argument.
-/

namespace TaskStore

/-- A task record, mirroring the dictionaries stored in the `tasks` list. -/
structure Task where
  id : Nat
  title : String
  description : String
  completed : Bool
  created_at : String
deriving Repr, DecidableEq

/-- A JSON request body restricted to the keys the handlers read
(`title`, `description`, `completed`); a missing key is `none`. -/
structure Payload where
  title : Option String
  description : Option String
  completed : Option Bool
deriving Repr, DecidableEq

/-- Python's `not data` for a dict over the modelled keys: the dict is
falsy exactly when it supplies no field. -/
def Payload.isEmptyDict (d : Payload) : Bool :=
  d.title.isNone && d.description.isNone && d.completed.isNone

/-- The module-level mutable state: the `tasks` list and `task_counter`. -/
structure StoreState where
  tasks : List Task
  task_counter : Nat
deriving Repr, DecidableEq

/-- A handler's JSON response: a task body, a message body, or an error
body `{"error": msg}`, each with its HTTP status code. -/
inductive ApiResult where
  | okTask (code : Nat) (t : Task)
  | okMsg (code : Nat) (msg : String)
  | err (code : Nat) (error : String)
deriving Repr, DecidableEq

/-- Whether a response is an error body. -/
def ApiResult.isErr : ApiResult → Bool
  | .err _ _ => true
  | _ => false

/-- The seed collection installed at module load: three sample tasks and
`task_counter = 4`. -/
def initState : StoreState :=
  { tasks :=
      [ { id := 1, title := "Learn Flask", description := "Build a REST API with Flask",
          completed := false, created_at := "2024-01-01T10:00:00" },
        { id := 2, title := "Learn React", description := "Create a frontend with React",
          completed := false, created_at := "2024-01-01T11:00:00" },
        { id := 3, title := "Setup CI/CD", description := "Configure GitHub Actions",
          completed := true, created_at := "2024-01-01T12:00:00" } ],
    task_counter := 4 }

/-- `GET /api/tasks/<id>`: `next((t for t in tasks if t['id'] == task_id), None)`,
then the task or a 404 error body.  Reads the state only. -/
def get_task (s : StoreState) (task_id : Nat) : ApiResult :=
  match s.tasks.find? (fun t => t.id == task_id) with
  | none => .err 404 "Task not found"
  | some task => .okTask 200 task

/-- `POST /api/tasks`: rejects a missing or falsy body and a body without
the `title` key; otherwise builds the new task from `task_counter` and the
payload (with defaults), appends it and bumps the counter.  `now` stands
for `datetime.now().isoformat()`. -/
def create_task (s : StoreState) (data : Option Payload) (now : String) :
    ApiResult × StoreState :=
  match data with
  | none => (.err 400 "Title is required", s)
  | some d =>
    if d.isEmptyDict then (.err 400 "Title is required", s)
    else
      match d.title with
      | none => (.err 400 "Title is required", s)
      | some ttl =>
        let new_task : Task :=
          { id := s.task_counter, title := ttl,
            description := d.description.getD "",
            completed := d.completed.getD false,
            created_at := now }
        (.okTask 201 new_task,
         { tasks := s.tasks ++ [new_task], task_counter := s.task_counter + 1 })

/-- In-place mutation of the first task whose id matches, as performed by
the handlers that assign to the dict returned by `next(...)`. -/
def updateFirst (i : Nat) (f : Task → Task) : List Task → List Task
  | [] => []
  | t :: ts => if t.id == i then f t :: ts else t :: updateFirst i f ts

/-- The field merge `update_task` performs on the found task:
`task['k'] = data.get('k', task['k'])` for the three mutable keys. -/
def mergeTask (d : Payload) (t : Task) : Task :=
  { t with title := d.title.getD t.title,
           description := d.description.getD t.description,
           completed := d.completed.getD t.completed }

/-- `PUT /api/tasks/<id>`: 404 if no task matches, 400 on a missing or
falsy body, else merges the supplied fields into the found task in place
and returns it. -/
def update_task (s : StoreState) (task_id : Nat) (data : Option Payload) :
    ApiResult × StoreState :=
  match s.tasks.find? (fun t => t.id == task_id) with
  | none => (.err 404 "Task not found", s)
  | some task =>
    match data with
    | none => (.err 400 "No data provided", s)
    | some d =>
      if d.isEmptyDict then (.err 400 "No data provided", s)
      else
        (.okTask 200 (mergeTask d task),
         { s with tasks := updateFirst task_id (mergeTask d) s.tasks })

/-- `DELETE /api/tasks/<id>`: 404 if no task matches, else rebinds `tasks`
to the list without that id and returns a confirmation message. -/
def delete_task (s : StoreState) (task_id : Nat) : ApiResult × StoreState :=
  match s.tasks.find? (fun t => t.id == task_id) with
  | none => (.err 404 "Task not found", s)
  | some _ =>
    (.okMsg 200 "Task deleted successfully",
     { s with tasks := s.tasks.filter (fun t => t.id != task_id) })

/-- The flip `toggle_task` performs on the found task. -/
def flipTask (t : Task) : Task :=
  { t with completed := !t.completed }

/-- `PATCH /api/tasks/<id>/toggle`: 404 if no task matches, else negates
`completed` on the found task in place and returns it. -/
def toggle_task (s : StoreState) (task_id : Nat) : ApiResult × StoreState :=
  match s.tasks.find? (fun t => t.id == task_id) with
  | none => (.err 404 "Task not found", s)
  | some task =>
    (.okTask 200 (flipTask task),
     { s with tasks := updateFirst task_id flipTask s.tasks })

/-- A state-changing request to the store (reads are omitted: they do not
touch the state). -/
inductive Op where
  | create (data : Option Payload) (now : String)
  | update (i : Nat) (data : Option Payload)
  | delete (i : Nat)
  | toggle (i : Nat)

/-- The state after one request. -/
def applyOp (s : StoreState) : Op → StoreState
  | .create d now => (create_task s d now).2
  | .update i d => (update_task s i d).2
  | .delete i => (delete_task s i).2
  | .toggle i => (toggle_task s i).2

/-- The id a single request hands out: the id of the task body a
successful create returns, nothing otherwise. -/
def createdIdOf (s : StoreState) : Op → List Nat
  | .create d now =>
    match (create_task s d now).1 with
    | .okTask _ t => [t.id]
    | _ => []
  | _ => []

/-- All ids handed out by the create operations along a request trace. -/
def createdIds : StoreState → List Op → List Nat
  | _, [] => []
  | s, op :: ops => createdIdOf s op ++ createdIds (applyOp s op) ops

example : get_task initState 2 = .okTask 200
    { id := 2, title := "Learn React", description := "Create a frontend with React",
      completed := false, created_at := "2024-01-01T11:00:00" } := rfl

example : (create_task initState (some ⟨some "A", none, none⟩) "T").1 =
    .okTask 201 { id := 4, title := "A", description := "", completed := false,
                  created_at := "T" } := rfl

example : (update_task initState 1 (some ⟨none, none, some true⟩)).1 =
    .okTask 200 { id := 1, title := "Learn Flask", description := "Build a REST API with Flask",
                  completed := true, created_at := "2024-01-01T10:00:00" } := rfl

example : (delete_task initState 2).2.tasks.length = 2 := rfl

example : (toggle_task (toggle_task initState 3 ).2 3).2 = initState := rfl

/-! ### Helper lemmas about `updateFirst` -/

/-- `updateFirst` rewrites exactly the first matching task when the prefix
contains no match. -/
theorem updateFirst_append_of_not_found {i : Nat} {f : Task → Task}
    {l1 : List Task} {t : Task} {l2 : List Task}
    (h : ∀ u ∈ l1, (u.id == i) = false) (ht : (t.id == i) = true) :
    updateFirst i f (l1 ++ t :: l2) = l1 ++ f t :: l2 := by
  induction l1 with
  | nil => simp [updateFirst, ht]
  | cons a as ih =>
    have ha := h a (by simp)
    have ih' := ih (fun u hu => h u (by simp [hu]))
    simp only [List.cons_append, updateFirst, ha, List.append_eq] at *
    simp [ih']

/-- Searching a concatenation whose first part has no match searches the
second part. -/
theorem find?_append_of_prefix_none {p : Task → Bool} {l1 l2 : List Task}
    (h : ∀ u ∈ l1, p u = false) :
    (l1 ++ l2).find? p = l2.find? p := by
  rw [List.find?_append]
  have hnone : l1.find? p = none :=
    List.find?_eq_none.mpr (by intro x hx; simp [h x hx])
  simp [hnone]

/-- Specialization of `List.find?` on a cons whose head matches the id. -/
theorem find?_task_cons_pos {i : Nat} {a : Task} (l : List Task)
    (h : (a.id == i) = true) :
    List.find? (fun u => u.id == i) (a :: l) = some a :=
  List.find?_cons_of_pos _ h

/-- Specialization of `List.find?` on a cons whose head misses the id. -/
theorem find?_task_cons_neg {i : Nat} {a : Task} (l : List Task)
    (h : (a.id == i) = false) :
    List.find? (fun u => u.id == i) (a :: l) = List.find? (fun u => u.id == i) l :=
  List.find?_cons_of_neg _ (by simp [h])

/-- `updateFirst` with an id-preserving rewrite keeps the first match
findable, now rewritten. -/
theorem find?_updateFirst {i : Nat} {f : Task → Task}
    (hid : ∀ u, (f u).id = u.id) {l : List Task} {t : Task}
    (h : l.find? (fun u => u.id == i) = some t) :
    (updateFirst i f l).find? (fun u => u.id == i) = some (f t) := by
  induction l with
  | nil => simp at h
  | cons a as ih =>
    by_cases ha : (a.id == i) = true
    · rw [find?_task_cons_pos as ha] at h
      obtain rfl : a = t := by injection h
      simp only [updateFirst, ha, if_pos]
      exact find?_task_cons_pos as (by rw [hid]; exact ha)
    · have ha' : (a.id == i) = false := by simpa using ha
      rw [find?_task_cons_neg as ha'] at h
      simp only [updateFirst, ha', Bool.false_eq_true, if_neg, not_false_eq_true]
      rw [find?_task_cons_neg _ ha']
      exact ih h

/-- Rewriting the first match twice with an id-preserving involution is
the identity. -/
theorem updateFirst_updateFirst {i : Nat} {f : Task → Task}
    (hid : ∀ u, (f u).id = u.id) (hff : ∀ u, f (f u) = u) (l : List Task) :
    updateFirst i f (updateFirst i f l) = l := by
  induction l with
  | nil => rfl
  | cons a as ih =>
    by_cases ha : (a.id == i) = true
    · simp [updateFirst, ha, hid, hff]
    · simp [updateFirst, ha, ih]

/-! ### C2, C4, C9, C10 -/

/-- C2: `create_task` rejects a missing body and a body without `title`
with a 400 error; given a body with `title` it assigns id `task_counter`,
defaults `description` to `""` and `completed` to `false`, stamps
`created_at` with the current time, appends the new record at the end of
the collection, bumps the counter, and returns the record with 201. -/
theorem create_task_spec (s : StoreState) (now : String) :
    create_task s none now = (.err 400 "Title is required", s) ∧
    (∀ d : Payload, d.title = none →
      create_task s (some d) now = (.err 400 "Title is required", s)) ∧
    (∀ (d : Payload) (ttl : String), d.title = some ttl →
      create_task s (some d) now =
        (.okTask 201
          { id := s.task_counter, title := ttl, description := d.description.getD "",
            completed := d.completed.getD false, created_at := now },
         { tasks := s.tasks ++
             [{ id := s.task_counter, title := ttl, description := d.description.getD "",
                completed := d.completed.getD false, created_at := now }],
           task_counter := s.task_counter + 1 })) := by
  refine ⟨rfl, ?_, ?_⟩
  · intro d hd
    by_cases hE : d.isEmptyDict <;> simp [create_task, hd, hE]
  · intro d ttl hd
    have hE : d.isEmptyDict = false := by simp [Payload.isEmptyDict, hd]
    simp [create_task, hd, hE]

/-- Witness for C2 at concrete inputs: a missing body, a body without
`title`, and a body with only `title`. -/
theorem create_task_spec_witness :
    create_task initState none "T" = (.err 400 "Title is required", initState) ∧
    create_task initState (some { title := none, description := some "d", completed := none })
        "T" = (.err 400 "Title is required", initState) ∧
    create_task initState (some { title := some "A", description := none, completed := none })
        "T" =
      (.okTask 201 { id := 4, title := "A", description := "", completed := false,
                     created_at := "T" },
       { tasks := initState.tasks ++
           [{ id := 4, title := "A", description := "", completed := false,
              created_at := "T" }],
         task_counter := 5 }) :=
  ⟨(create_task_spec initState "T").1,
   (create_task_spec initState "T").2.1 _ rfl,
   (create_task_spec initState "T").2.2 _ "A" rfl⟩

/-- C4: on an id matching no task, `get_task`, `update_task`,
`delete_task` and `toggle_task` all answer 404 with an error body. -/
theorem missing_id_yields_404 (s : StoreState) (i : Nat) (d : Option Payload)
    (h : s.tasks.find? (fun t => t.id == i) = none) :
    get_task s i = .err 404 "Task not found" ∧
    (update_task s i d).1 = .err 404 "Task not found" ∧
    (delete_task s i).1 = .err 404 "Task not found" ∧
    (toggle_task s i).1 = .err 404 "Task not found" := by
  refine ⟨?_, ?_, ?_, ?_⟩ <;>
    simp [get_task, update_task, delete_task, toggle_task, h]

/-- Witness for C4: id 99 is absent from the seed state. -/
theorem missing_id_yields_404_witness :
    get_task initState 99 = .err 404 "Task not found" ∧
    (update_task initState 99 none).1 = .err 404 "Task not found" ∧
    (delete_task initState 99).1 = .err 404 "Task not found" ∧
    (toggle_task initState 99).1 = .err 404 "Task not found" :=
  missing_id_yields_404 initState 99 none rfl

/-- C9: whenever a handler answers with an error body, it has not changed
the stored state (`get_task` reads the state only, by its type). -/
theorem failed_requests_leave_state_unchanged (s : StoreState) (i : Nat)
    (d : Option Payload) (now : String) :
    ((create_task s d now).1.isErr = true → (create_task s d now).2 = s) ∧
    ((update_task s i d).1.isErr = true → (update_task s i d).2 = s) ∧
    ((delete_task s i).1.isErr = true → (delete_task s i).2 = s) ∧
    ((toggle_task s i).1.isErr = true → (toggle_task s i).2 = s) := by
  refine ⟨?_, ?_, ?_, ?_⟩
  · cases d with
    | none => intro _; rfl
    | some dd =>
      cases hT : dd.title with
      | none => by_cases hE : dd.isEmptyDict <;> simp [create_task, hT, hE]
      | some ttl =>
        have hE : dd.isEmptyDict = false := by simp [Payload.isEmptyDict, hT]
        simp [create_task, hT, hE, ApiResult.isErr]
  · cases hF : s.tasks.find? (fun t => t.id == i) with
    | none => simp [update_task, hF]
    | some task =>
      cases d with
      | none => simp [update_task, hF]
      | some dd =>
        by_cases hE : dd.isEmptyDict <;>
          simp [update_task, hF, hE, ApiResult.isErr]
  · cases hF : s.tasks.find? (fun t => t.id == i) with
    | none => simp [delete_task, hF]
    | some task => simp [delete_task, hF, ApiResult.isErr]
  · cases hF : s.tasks.find? (fun t => t.id == i) with
    | none => simp [toggle_task, hF]
    | some task => simp [toggle_task, hF, ApiResult.isErr]

/-- Witness for C9: a create without a body and update/delete/toggle on
the absent id 99 all fail and leave the seed state as it was. -/
theorem failed_requests_leave_state_unchanged_witness :
    (create_task initState none "T").2 = initState ∧
    (update_task initState 99 none).2 = initState ∧
    (delete_task initState 99).2 = initState ∧
    (toggle_task initState 99).2 = initState :=
  ⟨(failed_requests_leave_state_unchanged initState 99 none "T").1 rfl,
   (failed_requests_leave_state_unchanged initState 99 none "T").2.1 rfl,
   (failed_requests_leave_state_unchanged initState 99 none "T").2.2.1 rfl,
   (failed_requests_leave_state_unchanged initState 99 none "T").2.2.2 rfl⟩

/-- C10: on an existing id, an update whose body is the empty JSON object
(present but supplying no field) is rejected with 400 and the state is
left unchanged; it is not treated as a partial update of zero fields. -/
theorem update_empty_body_rejected (s : StoreState) (i : Nat) (t : Task)
    (h : s.tasks.find? (fun u => u.id == i) = some t) :
    update_task s i (some { title := none, description := none, completed := none }) =
      (.err 400 "No data provided", s) := by
  simp [update_task, h, Payload.isEmptyDict]

/-- Witness for C10: the empty body on seed task 1. -/
theorem update_empty_body_rejected_witness :
    update_task initState 1 (some { title := none, description := none, completed := none }) =
      (.err 400 "No data provided", initState) :=
  update_empty_body_rejected initState 1
    { id := 1, title := "Learn Flask", description := "Build a REST API with Flask",
      completed := false, created_at := "2024-01-01T10:00:00" } rfl

/-! ### C3: frame property of partial update -/

/-- C3: on an existing id (the collection splits as `l1 ++ t :: l2` with
no earlier match) and a body supplying at least one field, `update_task`
overwrites exactly the supplied fields of `t`, keeps its `id` and
`created_at` and every unsupplied field, leaves every other task (`l1`
and `l2`) and the counter unchanged, and returns the updated record
with 200. -/
theorem update_task_frame (s : StoreState) (i : Nat) (d : Payload)
    (t : Task) (l1 l2 : List Task)
    (hsplit : s.tasks = l1 ++ t :: l2)
    (hl1 : ∀ u ∈ l1, (u.id == i) = false)
    (hid : (t.id == i) = true)
    (hne : d.isEmptyDict = false) :
    update_task s i (some d) =
      (.okTask 200
        { id := t.id, title := d.title.getD t.title,
          description := d.description.getD t.description,
          completed := d.completed.getD t.completed,
          created_at := t.created_at },
       { s with tasks := l1 ++
          { id := t.id, title := d.title.getD t.title,
            description := d.description.getD t.description,
            completed := d.completed.getD t.completed,
            created_at := t.created_at } :: l2 }) := by
  have hfind : s.tasks.find? (fun u => u.id == i) = some t := by
    rw [hsplit, find?_append_of_prefix_none hl1, find?_task_cons_pos l2 hid]
  have hmerge : mergeTask d t =
      { id := t.id, title := d.title.getD t.title,
        description := d.description.getD t.description,
        completed := d.completed.getD t.completed,
        created_at := t.created_at } := rfl
  have hupd : updateFirst i (mergeTask d) s.tasks = l1 ++ mergeTask d t :: l2 := by
    rw [hsplit]; exact updateFirst_append_of_not_found hl1 hid
  simp [update_task, hfind, hne, hupd, hmerge]

/-- Witness for C3: toggling only `completed` of seed task 2 in place. -/
theorem update_task_frame_witness :
    update_task initState 2
        (some { title := none, description := none, completed := some true }) =
      (.okTask 200
        { id := 2, title := "Learn React", description := "Create a frontend with React",
          completed := true, created_at := "2024-01-01T11:00:00" },
       { tasks :=
           [ { id := 1, title := "Learn Flask", description := "Build a REST API with Flask",
               completed := false, created_at := "2024-01-01T10:00:00" },
             { id := 2, title := "Learn React", description := "Create a frontend with React",
               completed := true, created_at := "2024-01-01T11:00:00" },
             { id := 3, title := "Setup CI/CD", description := "Configure GitHub Actions",
               completed := true, created_at := "2024-01-01T12:00:00" } ],
         task_counter := 4 }) :=
  update_task_frame initState 2 { title := none, description := none, completed := some true }
    { id := 2, title := "Learn React", description := "Create a frontend with React",
      completed := false, created_at := "2024-01-01T11:00:00" }
    [ { id := 1, title := "Learn Flask", description := "Build a REST API with Flask",
        completed := false, created_at := "2024-01-01T10:00:00" } ]
    [ { id := 3, title := "Setup CI/CD", description := "Configure GitHub Actions",
        completed := true, created_at := "2024-01-01T12:00:00" } ]
    rfl (by decide) rfl rfl

/-! ### C5: toggle is an involution -/

/-- C5: on an existing id, one toggle answers 200 with the task whose
`completed` is negated, and a second toggle answers the original task and
restores the whole state. -/
theorem toggle_task_involutive (s : StoreState) (i : Nat) (t : Task)
    (h : s.tasks.find? (fun u => u.id == i) = some t) :
    (toggle_task s i).1 = .okTask 200 { t with completed := !t.completed } ∧
    (toggle_task (toggle_task s i).2 i).1 = .okTask 200 t ∧
    (toggle_task (toggle_task s i).2 i).2 = s := by
  have hid : ∀ u, (flipTask u).id = u.id := fun u => rfl
  have hff : ∀ u, flipTask (flipTask u) = u := by intro u; simp [flipTask]
  have h2 : (updateFirst i flipTask s.tasks).find? (fun u => u.id == i) =
      some (flipTask t) := find?_updateFirst hid h
  refine ⟨?_, ?_, ?_⟩
  · simp [toggle_task, h, flipTask]
  · simp [toggle_task, h, h2, hff]
  · simp [toggle_task, h, h2, updateFirst_updateFirst hid hff]

/-- Witness for C5 on seed task 3 (completed at start). -/
theorem toggle_task_involutive_witness :
    (toggle_task initState 3).1 = .okTask 200
      { id := 3, title := "Setup CI/CD", description := "Configure GitHub Actions",
        completed := false, created_at := "2024-01-01T12:00:00" } ∧
    (toggle_task (toggle_task initState 3).2 3).1 = .okTask 200
      { id := 3, title := "Setup CI/CD", description := "Configure GitHub Actions",
        completed := true, created_at := "2024-01-01T12:00:00" } ∧
    (toggle_task (toggle_task initState 3).2 3).2 = initState :=
  toggle_task_involutive initState 3
    { id := 3, title := "Setup CI/CD", description := "Configure GitHub Actions",
      completed := true, created_at := "2024-01-01T12:00:00" } rfl

/-! ### C6: create/get round trip -/

/-- C6: from a state whose task ids are all below the counter, a
successful create followed by a get on the returned record's id answers
200 with exactly that record (hence with the same `title`, `description`
and `completed`). -/
theorem create_then_get_roundtrip (s : StoreState) (d : Payload) (now : String)
    (r : Task)
    (hinv : ∀ u ∈ s.tasks, u.id < s.task_counter)
    (hc : (create_task s (some d) now).1 = .okTask 201 r) :
    get_task (create_task s (some d) now).2 r.id = .okTask 200 r := by
  cases hT : d.title with
  | none =>
    exfalso
    by_cases hE : d.isEmptyDict <;> simp [create_task, hT, hE] at hc
  | some ttl =>
    have hE : d.isEmptyDict = false := by simp [Payload.isEmptyDict, hT]
    have hcr : create_task s (some d) now =
        (.okTask 201
          { id := s.task_counter, title := ttl, description := d.description.getD "",
            completed := d.completed.getD false, created_at := now },
         { tasks := s.tasks ++
             [{ id := s.task_counter, title := ttl, description := d.description.getD "",
                completed := d.completed.getD false, created_at := now }],
           task_counter := s.task_counter + 1 }) := by
      simp [create_task, hT, hE]
    rw [hcr] at hc
    obtain rfl : _ = r := by injection hc
    have hpre : ∀ u ∈ s.tasks, ((u.id == s.task_counter) : Bool) = false := by
      intro u hu
      simp only [beq_eq_false_iff_ne, ne_eq]
      exact Nat.ne_of_lt (hinv u hu)
    rw [hcr]
    simp only [get_task]
    rw [find?_append_of_prefix_none hpre, List.find?_cons_of_pos _ (by simp)]

/-- Witness for C6: create from the seed state, then get id 4. -/
theorem create_then_get_roundtrip_witness :
    get_task
      (create_task initState
        (some { title := some "A", description := some "B", completed := some true }) "T").2
      4 = .okTask 200
        { id := 4, title := "A", description := "B", completed := true,
          created_at := "T" } :=
  create_then_get_roundtrip initState
    { title := some "A", description := some "B", completed := some true } "T"
    { id := 4, title := "A", description := "B", completed := true, created_at := "T" }
    (by decide) rfl

/-! ### C7: delete removes exactly the addressed task -/

/-- C7: on an existing id in a collection with pairwise distinct ids,
delete answers the confirmation message, a subsequent get on the id
answers 404, the count drops by exactly one, and the surviving
collection consists precisely of the other tasks. -/
theorem delete_task_removes (s : StoreState) (i : Nat) (t : Task)
    (hfind : s.tasks.find? (fun u => u.id == i) = some t)
    (hnodup : (s.tasks.map Task.id).Nodup) :
    (delete_task s i).1 = .okMsg 200 "Task deleted successfully" ∧
    get_task (delete_task s i).2 i = .err 404 "Task not found" ∧
    (delete_task s i).2.tasks.length + 1 = s.tasks.length ∧
    (∀ u ∈ s.tasks, u.id ≠ i → u ∈ (delete_task s i).2.tasks) ∧
    (∀ u ∈ (delete_task s i).2.tasks, u ∈ s.tasks) := by
  obtain ⟨hp, l1, l2, hsplit, hl1⟩ := List.find?_eq_some.mp hfind
  have hti : t.id = i := by simpa using hp
  have hl1' : ∀ u ∈ l1, u.id ≠ i := by
    intro u hu
    simpa using hl1 u hu
  have hl2' : ∀ u ∈ l2, u.id ≠ i := by
    intro u hu
    rw [hsplit] at hnodup
    simp only [List.map_append, List.map_cons] at hnodup
    have h2 := hnodup.of_append_right
    rw [List.nodup_cons] at h2
    intro hui
    exact h2.1 (by rw [hti, ← hui]; exact List.mem_map_of_mem Task.id hu)
  have hdel : (delete_task s i).2 =
      { s with tasks := s.tasks.filter (fun u => u.id != i) } := by
    simp [delete_task, hfind]
  have hfilter : s.tasks.filter (fun u => u.id != i) = l1 ++ l2 := by
    rw [hsplit, List.filter_append]
    have h1 : l1.filter (fun u => u.id != i) = l1 :=
      List.filter_eq_self.mpr (by intro u hu; simpa using hl1' u hu)
    have h2 : l2.filter (fun u => u.id != i) = l2 :=
      List.filter_eq_self.mpr (by intro u hu; simpa using hl2' u hu)
    have h3 : (t :: l2).filter (fun u => u.id != i) = l2 := by
      rw [List.filter_cons]
      simp [hti, h2]
    rw [h1, h3]
  refine ⟨by simp [delete_task, hfind], ?_, ?_, ?_, ?_⟩
  · have hnone : (s.tasks.filter (fun u => u.id != i)).find?
        (fun u => u.id == i) = none := by
      rw [hfilter]
      apply List.find?_eq_none.mpr
      intro x hx
      rcases List.mem_append.mp hx with h | h
      · simp [hl1' x h]
      · simp [hl2' x h]
    rw [hdel]
    simp [get_task, hnone]
  · rw [hdel]
    show (s.tasks.filter (fun u => u.id != i)).length + 1 = s.tasks.length
    rw [hfilter, hsplit]
    simp [List.length_append]
    omega
  · intro u hu hne
    rw [hdel]
    show u ∈ s.tasks.filter (fun u => u.id != i)
    exact List.mem_filter.mpr ⟨hu, by simpa using hne⟩
  · intro u hu
    rw [hdel] at hu
    exact (List.mem_filter.mp hu).1

/-- Witness for C7: deleting seed task 2. -/
theorem delete_task_removes_witness :
    (delete_task initState 2).1 = .okMsg 200 "Task deleted successfully" ∧
    get_task (delete_task initState 2).2 2 = .err 404 "Task not found" ∧
    (delete_task initState 2).2.tasks.length + 1 = initState.tasks.length :=
  ⟨(delete_task_removes initState 2
      { id := 2, title := "Learn React", description := "Create a frontend with React",
        completed := false, created_at := "2024-01-01T11:00:00" } rfl (by decide)).1,
   (delete_task_removes initState 2
      { id := 2, title := "Learn React", description := "Create a frontend with React",
        completed := false, created_at := "2024-01-01T11:00:00" } rfl (by decide)).2.1,
   (delete_task_removes initState 2
      { id := 2, title := "Learn React", description := "Create a frontend with React",
        completed := false, created_at := "2024-01-01T11:00:00" } rfl (by decide)).2.2.1⟩

/-! ### C8: is the empty title rejected? -/

/-- C8 counterexample: a create whose body carries `title` as the empty
string is accepted with 201 and the empty-titled task enters the
collection, so the store does not keep every `title` non-empty. -/
theorem create_admits_empty_title :
    (create_task initState
        (some { title := some "", description := some "x", completed := none }) "T").1 =
      .okTask 201
        { id := 4, title := "", description := "x", completed := false,
          created_at := "T" } ∧
    { id := 4, title := "", description := "x", completed := false, created_at := "T" } ∈
      (create_task initState
        (some { title := some "", description := some "x", completed := none }) "T").2.tasks :=
  ⟨rfl, by simp [create_task, initState, Payload.isEmptyDict]⟩

/-- C8 amended: the only title validation is presence.  `create_task`
fails exactly when the body carries no `title` key, and `update_task`
with a body fails exactly when the id is absent or the body is empty;
neither inspects the title's content, so an empty-string title is
admitted. -/
theorem title_presence_is_the_only_validation (s : StoreState) (d : Option Payload)
    (dd : Payload) (i : Nat) (now : String) :
    (create_task s d now).1.isErr = (d.bind Payload.title).isNone ∧
    (update_task s i (some dd)).1.isErr =
      ((s.tasks.find? fun u => u.id == i).isNone || dd.isEmptyDict) := by
  constructor
  · cases d with
    | none => rfl
    | some p =>
      cases hT : p.title with
      | none =>
        by_cases hE : p.isEmptyDict <;> simp [create_task, hT, hE, ApiResult.isErr]
      | some ttl =>
        have hE : p.isEmptyDict = false := by simp [Payload.isEmptyDict, hT]
        simp [create_task, hT, hE, ApiResult.isErr]
  · cases hF : s.tasks.find? (fun u => u.id == i) with
    | none => simp [update_task, hF, ApiResult.isErr]
    | some task =>
      by_cases hE : dd.isEmptyDict <;> simp [update_task, hF, hE, ApiResult.isErr]

/-! ### C1: ids are assigned strictly increasingly and never reused -/

/-- No request ever lowers `task_counter`. -/
theorem counter_mono (s : StoreState) (op : Op) :
    s.task_counter ≤ (applyOp s op).task_counter := by
  cases op with
  | create d now =>
    cases d with
    | none => exact Nat.le_refl _
    | some dd =>
      cases hT : dd.title with
      | none =>
        by_cases hE : dd.isEmptyDict <;> simp [applyOp, create_task, hT, hE]
      | some ttl =>
        have hE : dd.isEmptyDict = false := by simp [Payload.isEmptyDict, hT]
        simp [applyOp, create_task, hT, hE]
  | update i d =>
    cases hF : s.tasks.find? (fun t => t.id == i) with
    | none => simp [applyOp, update_task, hF]
    | some task =>
      cases d with
      | none => simp [applyOp, update_task, hF]
      | some dd =>
        by_cases hE : dd.isEmptyDict <;> simp [applyOp, update_task, hF, hE]
  | delete i =>
    cases hF : s.tasks.find? (fun t => t.id == i) with
    | none => simp [applyOp, delete_task, hF]
    | some task => simp [applyOp, delete_task, hF]
  | toggle i =>
    cases hF : s.tasks.find? (fun t => t.id == i) with
    | none => simp [applyOp, toggle_task, hF]
    | some task => simp [applyOp, toggle_task, hF]

/-- A create either hands out no id and keeps the counter, or hands out
the current counter value and bumps it. -/
theorem createdIdOf_create (s : StoreState) (d : Option Payload) (now : String) :
    (createdIdOf s (Op.create d now) = [] ∧
     (applyOp s (Op.create d now)).task_counter = s.task_counter) ∨
    (createdIdOf s (Op.create d now) = [s.task_counter] ∧
     (applyOp s (Op.create d now)).task_counter = s.task_counter + 1) := by
  cases d with
  | none => exact Or.inl ⟨rfl, rfl⟩
  | some dd =>
    cases hT : dd.title with
    | none =>
      left
      by_cases hE : dd.isEmptyDict <;>
        simp [createdIdOf, applyOp, create_task, hT, hE]
    | some ttl =>
      right
      have hE : dd.isEmptyDict = false := by simp [Payload.isEmptyDict, hT]
      simp [createdIdOf, applyOp, create_task, hT, hE]

/-- Along any trace, the ids handed out by creates are strictly
increasing and all at least the starting counter. -/
theorem createdIds_sorted_and_bounded (ops : List Op) :
    ∀ s : StoreState,
      List.Sorted (· < ·) (createdIds s ops) ∧
      ∀ x ∈ createdIds s ops, s.task_counter ≤ x := by
  induction ops with
  | nil => intro s; simp [createdIds]
  | cons op ops ih =>
    intro s
    have hmono := counter_mono s op
    obtain ⟨ihs, ihb⟩ := ih (applyOp s op)
    have hcons : createdIds s (op :: ops) =
        createdIdOf s op ++ createdIds (applyOp s op) ops := rfl
    have hskip : createdIdOf s op = [] →
        List.Sorted (· < ·) (createdIds s (op :: ops)) ∧
        ∀ x ∈ createdIds s (op :: ops), s.task_counter ≤ x := by
      intro h0
      rw [hcons, h0, List.nil_append]
      exact ⟨ihs, fun x hx => le_trans hmono (ihb x hx)⟩
    cases op with
    | create d now =>
      rcases createdIdOf_create s d now with ⟨h0, _⟩ | ⟨h1, hc⟩
      · exact hskip h0
      · rw [hcons, h1, List.singleton_append]
        constructor
        · rw [List.sorted_cons]
          refine ⟨fun b hb => ?_, ihs⟩
          have := ihb b hb
          omega
        · intro x hx
          rcases List.mem_cons.mp hx with rfl | hx
          · exact Nat.le_refl _
          · have := ihb x hx
            omega
    | update i d => exact hskip rfl
    | delete i => exact hskip rfl
    | toggle i => exact hskip rfl

/-- C1: along every request trace from the seed state, the seed ids
followed by the ids handed out by successful creates form a strictly
increasing, duplicate-free list: each created id is strictly above all
previously assigned ids, so no id is ever handed out twice, even after
the task holding it has been deleted. -/
theorem assigned_ids_strictly_increase (ops : List Op) :
    List.Sorted (· < ·)
      ((initState.tasks.map Task.id) ++ createdIds initState ops) ∧
    ((initState.tasks.map Task.id) ++ createdIds initState ops).Nodup := by
  obtain ⟨hs, hb⟩ := createdIds_sorted_and_bounded ops initState
  have hseed : initState.tasks.map Task.id = [1, 2, 3] := rfl
  have hsorted : List.Sorted (· < ·)
      ((initState.tasks.map Task.id) ++ createdIds initState ops) := by
    apply List.pairwise_append.mpr
    refine ⟨?_, hs, ?_⟩
    · rw [hseed]; decide
    · intro a ha b hb'
      rw [hseed] at ha
      have hbb := hb b hb'
      have hc4 : initState.task_counter = 4 := rfl
      rw [hc4] at hbb
      simp only [List.mem_cons, List.not_mem_nil, or_false] at ha
      rcases ha with rfl | rfl | rfl <;> omega
  exact ⟨hsorted, hsorted.nodup⟩

end TaskStore
